import Mathlib

/-!
Shallow embedding of sotastats.py (SOTAStats): the normalization functions,
the sqlite-backed store operations, the report generators and the scheduler
loop body, together with theorems settling the specification claims.

Modelling conventions:
* Python dict values from the JSON feed are modelled by `Value`
  (null / string / integer); an absent key is `Option.none` on the record.
* Python exceptions used for per-record control flow are modelled by
  `Except PyErr`.
* Timestamps are modelled by the `Datetime` structure (year, month, day,
  hour, minute, second - the script only ever works at second precision).
  The sqlite tables store timestamps as ISO text "YYYY-MM-DD HH:MM:SS",
  compared byte-wise; for timestamps in canonical field ranges that byte
  order coincides with lexicographic order on the field tuple, which is
  what `dtLt` / `dtLe` implement.
* The numeric value produced by locale.atof is abstracted as `Int` and the
  parser itself is a parameter (`atof`), since locale-specific number
  parsing is an external collaborator; no claim depends on the value.
  Likewise datetime.fromisoformat is a parameter (`fromiso`).
-/

-- ### Python-level values and errors

inductive PyErr where
  | keyError
  | valueError
  | typeError
  | attrError
  deriving DecidableEq

inductive Value where
  | vNull
  | vStr (s : String)
  | vInt (n : Int)
  deriving DecidableEq

/-- Sequencing of fallible Python statements: an uncaught exception aborts
the rest of the computation. -/
def thenE {α β : Type} (e : Except PyErr α) (f : α → Except PyErr β) : Except PyErr β :=
  match e with
  | Except.error er => Except.error er
  | Except.ok a => f a

/-- Dict access s[k]: raises KeyError when the key is absent. -/
def req (v : Option Value) : Except PyErr Value :=
  match v with
  | none => Except.error PyErr.keyError
  | some x => Except.ok x

/-- Python str.upper, character by character (structural so that concrete
records evaluate inside the kernel). -/
def pyUpper (s : String) : String := ⟨s.data.map Char.toUpper⟩

def pyStripList (l : List Char) : List Char :=
  ((l.dropWhile Char.isWhitespace).reverse.dropWhile Char.isWhitespace).reverse

/-- Python str.strip: whitespace removed from both ends. -/
def pyStrip (s : String) : String := ⟨pyStripList s.data⟩

def natFromDigits (l : List Char) : Nat :=
  l.foldl (fun a c => a * 10 + (c.toNat - Char.toNat '0')) 0

def digitsToInt (sign : Int) (l : List Char) : Option Int :=
  if !l.isEmpty && l.all Char.isDigit then some (sign * (natFromDigits l : Int)) else none

/-- Python int(str): optional surrounding whitespace, optional sign, digits
(the underscore and non-ASCII digit forms Python also accepts are not
modelled; no claim exercises them). -/
def parseIntStr (s : String) : Option Int :=
  match (pyStrip s).toList with
  | '+' :: rest => digitsToInt 1 rest
  | '-' :: rest => digitsToInt (-1) rest
  | l => digitsToInt 1 l

/-- Python int(x) on a feed value: ints pass through, strings are parsed
(ValueError on failure), null raises TypeError. -/
def pyInt : Value → Except PyErr Int
  | Value.vInt n => Except.ok n
  | Value.vStr s =>
    match parseIntStr s with
    | some n => Except.ok n
    | none => Except.error PyErr.valueError
  | Value.vNull => Except.error PyErr.typeError

/-- Python x.upper().strip(): string method access on a non-string raises
AttributeError. -/
def asStrUpperStrip (v : Value) : Except PyErr String :=
  match v with
  | Value.vStr s => Except.ok (pyStrip (pyUpper s))
  | _ => Except.error PyErr.attrError

/-- Python x.strip() on a feed value. -/
def asStrStrip (v : Value) : Except PyErr String :=
  match v with
  | Value.vStr s => Except.ok (pyStrip s)
  | _ => Except.error PyErr.attrError

-- ### Datetime model

structure Datetime where
  year : Nat
  month : Nat
  day : Nat
  hour : Nat
  minute : Nat
  second : Nat
  deriving DecidableEq

/-- Strict lexicographic order on timestamp fields; models byte-wise
comparison of the canonical ISO text sqlite stores. -/
def dtLt (a b : Datetime) : Bool :=
  if a.year ≠ b.year then decide (a.year < b.year)
  else if a.month ≠ b.month then decide (a.month < b.month)
  else if a.day ≠ b.day then decide (a.day < b.day)
  else if a.hour ≠ b.hour then decide (a.hour < b.hour)
  else if a.minute ≠ b.minute then decide (a.minute < b.minute)
  else decide (a.second < b.second)

/-- Non-strict order: for the total order dtLt, a ≤ b is exactly not (b < a). -/
def dtLe (a b : Datetime) : Bool := !(dtLt b a)

def pad2 (n : Nat) : String := if n < 10 then "0" ++ toString n else toString n

def pad4 (n : Nat) : String :=
  if n < 10 then "000" ++ toString n
  else if n < 100 then "00" ++ toString n
  else if n < 1000 then "0" ++ toString n
  else toString n

/-- Date part of the ISO rendering, as produced by str(datetime) before the
single space; monthly_report_summits splits the rendered timestamp on the
space and keeps this part. -/
def dateStr (t : Datetime) : String :=
  pad4 t.year ++ "-" ++ pad2 t.month ++ "-" ++ pad2 t.day

-- ### Timestamp normalization (normalize_sota_timestamp, lines 186-191)

/-- Python str.split on a single-character separator, keeping empty parts. -/
def splitDot : List Char → List (List Char)
  | [] => [[]]
  | c :: cs =>
    if c = '.' then [] :: splitDot cs
    else
      match splitDot cs with
      | [] => [[c]]
      | r :: rs => (c :: r) :: rs

/-- Embedding of normalize_sota_timestamp: when the text contains a dot it
is split on every dot and unpacked into exactly two parts (a different
number of parts raises ValueError), the part before the dot being parsed;
otherwise the whole text is parsed. fromiso abstracts
datetime.fromisoformat. -/
def normalize_sota_timestamp (fromiso : List Char → Except PyErr Datetime)
    (timestamp : List Char) : Except PyErr Datetime :=
  if timestamp.contains '.' then
    match splitDot timestamp with
    | [ts, _ms] => fromiso ts
    | _ => Except.error PyErr.valueError
  else fromiso timestamp

-- ### Configuration (the config dict, lines 54-63)

structure Config where
  server : String
  association : String
  dbname : String
  stats : String
  spots_table : String
  summits_table : String
  store_all : Bool
  report_file : String

def config : Config :=
  { server := "https://api2.sota.org.uk"
    association := "w5n"
    dbname := "sotastats.db"
    stats := "querystats.csv"
    spots_table := "spots"
    summits_table := "summits"
    store_all := true
    report_file := "w5n_spot_summary.txt" }

-- ### Spot records and normalize_spot (lines 150-180)

/-- Raw JSON spot as received from the API: each field is absent (none) or
holds a feed value. -/
structure RawSpot where
  id : Option Value
  timeStamp : Option Value
  activatorCallsign : Option Value
  associationCode : Option Value
  summitCode : Option Value
  mode : Option Value
  summitDetails : Option Value
  comments : Option Value
  highlightColor : Option Value
  callsign : Option Value
  activatorName : Option Value
  frequency : Option Value
  userID : Option Value
  deriving DecidableEq

/-- Canonical spot record; frequency abstracts the float locale.atof
returns (no claim depends on its numeric value). -/
structure NormSpot where
  id : Int
  timeStamp : Datetime
  activatorCallsign : String
  associationCode : String
  summitCode : String
  mode : String
  summitDetails : String
  comments : Option String
  highlightColor : String
  callsign : String
  activatorName : String
  frequency : Int
  userID : Int
  deriving DecidableEq

/-- Embedding of lines 173-178: try int(s[userID]) catching only KeyError
and ValueError to default the field to zero; any other exception (for
example TypeError from int(None)) propagates. -/
def normalizeUserID : Option Value → Except PyErr Int
  | none => Except.ok 0
  | some v =>
    match pyInt v with
    | Except.ok k => Except.ok k
    | Except.error PyErr.valueError => Except.ok 0
    | Except.error e => Except.error e

/-- Python "." in x followed by str methods requires a string; a non-string
timeStamp raises TypeError at the membership test. -/
def normalizeTimestampField (fromiso : List Char → Except PyErr Datetime) :
    Value → Except PyErr Datetime
  | Value.vStr str => normalize_sota_timestamp fromiso str.toList
  | _ => Except.error PyErr.typeError

/-- locale.atof over a feed value: must be text (a non-string raises at the
string operations inside atof) and must parse as a number, else ValueError. -/
def normalizeFrequencyField (atof : String → Option Int) : Value → Except PyErr Int
  | Value.vStr str =>
    match atof str with
    | some q => Except.ok q
    | none => Except.error PyErr.valueError
  | _ => Except.error PyErr.typeError

/-- Line 164: s[comments].strip() if type(s[comments]) is str else None. -/
def normalizeCommentsField (v : Value) : Option String :=
  match v with
  | Value.vStr str => some str.trim
  | _ => none

/-- All normalization steps of normalize_spot before the userID step, in
source order, the first uncaught exception failing the record. The userID
field carries a placeholder zero here; normalize_spot always overwrites it
with the value of the userID rule, computed last as in the source. -/
def normalize_spotFields (atof : String → Option Int)
    (fromiso : List Char → Except PyErr Datetime) (s : RawSpot) :
    Except PyErr NormSpot :=
  thenE (req s.id) fun idv =>
  thenE (pyInt idv) fun idn =>
  thenE (req s.timeStamp) fun tsv =>
  thenE (normalizeTimestampField fromiso tsv) fun ts =>
  thenE (req s.activatorCallsign) fun acv =>
  thenE (asStrUpperStrip acv) fun activatorCallsign =>
  thenE (req s.associationCode) fun asv =>
  thenE (asStrUpperStrip asv) fun associationCode =>
  thenE (req s.summitCode) fun scv =>
  thenE (asStrUpperStrip scv) fun summitCode =>
  thenE (req s.mode) fun mov =>
  thenE (asStrStrip mov) fun mode =>
  thenE (req s.summitDetails) fun sdv =>
  thenE (asStrStrip sdv) fun summitDetails =>
  thenE (req s.comments) fun cov =>
  thenE (req s.highlightColor) fun hcv =>
  thenE (asStrStrip hcv) fun highlightColor =>
  thenE (req s.callsign) fun cav =>
  thenE (asStrUpperStrip cav) fun callsign =>
  thenE (req s.activatorName) fun anv =>
  thenE (asStrStrip anv) fun activatorName =>
  thenE (req s.frequency) fun frv =>
  thenE (normalizeFrequencyField atof frv) fun frequency =>
  Except.ok
    { id := idn
      timeStamp := ts
      activatorCallsign := activatorCallsign
      associationCode := associationCode
      summitCode := summitCode
      mode := mode
      summitDetails := summitDetails
      comments := normalizeCommentsField cov
      highlightColor := highlightColor
      callsign := callsign
      activatorName := activatorName
      frequency := frequency
      userID := 0 }

/-- Embedding of normalize_spot (lines 150-180): the fields in source
order, then the userID rule of lines 173-178, assembling the canonical
record. -/
def normalize_spot (atof : String → Option Int)
    (fromiso : List Char → Except PyErr Datetime) (s : RawSpot) :
    Except PyErr NormSpot :=
  thenE (normalize_spotFields atof fromiso s) fun base =>
  thenE (normalizeUserID s.userID) fun uid =>
  Except.ok { base with userID := uid }

-- ### store_spots (lines 193-218)

/-- REPLACE INTO on the spots table, whose single-column primary key is id:
the conflicting row is removed and the new row inserted. -/
def replaceInto (db : List NormSpot) (n : NormSpot) : List NormSpot :=
  db.filter (fun r => r.id != n.id) ++ [n]

/-- One iteration of the store_spots loop: a normalization failure is
printed and the record skipped; an out-of-association record is skipped
unless store_all; otherwise the row is upserted. The sqlite execute call
is total in this model (the source also catches and skips its failures). -/
def spotStoreStep (atof : String → Option Int)
    (fromiso : List Char → Except PyErr Datetime)
    (db : List NormSpot) (s : RawSpot) : List NormSpot :=
  match normalize_spot atof fromiso s with
  | Except.error _ => db
  | Except.ok n =>
    if pyUpper n.associationCode != pyUpper config.association && !config.store_all then db
    else replaceInto db n

def store_spots (atof : String → Option Int)
    (fromiso : List Char → Except PyErr Datetime)
    (spots : List RawSpot) (db : List NormSpot) : List NormSpot :=
  spots.foldl (spotStoreStep atof fromiso) db

-- ### Summit snapshot rows (summits table, line 71) and queries

/-- Snapshot row of the summits table, in column order: summitCode, name,
points, activationCount, activationDate, activationCall, refreshed.
activationDate and activationCall are NULL when the count is zero. -/
structure SRow where
  summitCode : String
  name : String
  points : Int
  activationCount : Int
  activationDate : Option Datetime
  activationCall : Option String
  refreshed : Datetime
  deriving DecidableEq

/-- Stable insertion of one row into a list sorted by le. -/
def insertRow {α : Type} (le : α → α → Bool) (x : α) : List α → List α
  | [] => [x]
  | y :: ys => if le x y then x :: y :: ys else y :: insertRow le x ys

/-- Stable sort modelling ORDER BY. -/
def sortRows {α : Type} (le : α → α → Bool) : List α → List α
  | [] => []
  | x :: xs => insertRow le x (sortRows le xs)

/-- String comparison as sqlite BINARY collation (byte-wise, which agrees
with the codepoint order Lean compare uses on these ASCII codes). -/
def strLt (a b : String) : Bool :=
  match compare a b with
  | Ordering.lt => true
  | _ => false

/-- NULL sorts before any value under ascending ORDER BY. -/
def optDtLe (a b : Option Datetime) : Bool :=
  match a, b with
  | none, _ => true
  | some _, none => false
  | some x, some y => dtLe x y

/-- ORDER BY summitCode, refreshed, activationDate ASC (line 326). -/
def rowLe (a b : SRow) : Bool :=
  if a.summitCode ≠ b.summitCode then strLt a.summitCode b.summitCode
  else if a.refreshed ≠ b.refreshed then dtLt a.refreshed b.refreshed
  else optDtLe a.activationDate b.activationDate

-- ### Month window (lines 275-279 and 320-324, identical in both reports)

def monthStart (y m : Nat) : Datetime := ⟨y, m, 1, 0, 0, 0⟩

def monthEnd (y m : Nat) : Datetime :=
  if m = 12 then ⟨y + 1, 1, 1, 0, 0, 0⟩ else ⟨y, m + 1, 1, 0, 0, 0⟩

/-- WHERE activationDate >= begin AND activationDate < end: a NULL
activationDate satisfies neither comparison. -/
def inMonthWindow (y m : Nat) (d : Option Datetime) : Bool :=
  match d with
  | some t => dtLe (monthStart y m) t && dtLt t (monthEnd y m)
  | none => false

/-- Windowed snapshot query of monthly_report_summits (line 326). -/
def hotSummits (db : List SRow) (y m : Nat) : List SRow :=
  sortRows rowLe (db.filter (fun r => inMonthWindow y m r.activationDate))

/-- Per-entity history query (line 364): ORDER BY refreshed DESC LIMIT 2. -/
def summitHistory (db : List SRow) (code : String) : List SRow :=
  (sortRows (fun a b => dtLe b.refreshed a.refreshed)
    (db.filter (fun r => r.summitCode == code))).take 2

/-- Embedding of the deduplication loop (lines 337-345): a candidate is
kept only when no element of the full candidate list, itself included,
carries its summit code. -/
def deduplicatedOf (hot : List SRow) : List SRow :=
  hot.filter (fun s => !(hot.any (fun j => j.summitCode == s.summitCode)))

-- ### Elapsed days between refresh timestamps (line 377)

/-- Days since 1970-01-01 of a civil date (the standard days-from-civil
computation); only differences of this value are ever used. -/
def daysFromCivil (y m d : Int) : Int :=
  let yy := if m ≤ 2 then y - 1 else y
  let era := yy.fdiv 400
  let yoe := yy - era * 400
  let mp := (m + 9).emod 12
  let doy := (153 * mp + 2).fdiv 5 + d - 1
  let doe := yoe * 365 + yoe.fdiv 4 - yoe.fdiv 100 + doy
  era * 146097 + doe - 719468

def toSecs (t : Datetime) : Int :=
  daysFromCivil (t.year : Int) (t.month : Int) (t.day : Int) * 86400
    + (t.hour : Int) * 3600 + (t.minute : Int) * 60 + (t.second : Int)

/-- Python (a - b).days: the day component of a normalized timedelta is the
floor of the difference in seconds over 86400. -/
def daysBetween (a b : Datetime) : Int := (toSecs a - toSecs b).fdiv 86400

-- ### Monthly summit report (monthly_report_summits, lines 318-415)

/-- Badge selection of lines 402-409, keyed on the all-time total. -/
def badgeOf (total : Int) : String :=
  if total ≤ 1 then "★" else if total ≤ 5 then "☆" else " "

/-- Report lines produced inside the per-summit loop: the not-enough-data
error line, the two one-time stale-data warnings, and the data line with
columns ref, name, count, total, points, most-recently, by, badge. -/
inductive RLine where
  | err (code : String)
  | warnYoung (td : Int)
  | warnOld (td : Int)
  | data (ref name : String) (count total points : Int)
      (mostRecently bycall badge : String)
  deriving DecidableEq

/-- Loop state of monthly_report_summits: the one-time warning suppression
flag, the two footnote flags, and the lines written so far. -/
structure RState where
  suppress : Bool
  sawInitial : Bool
  sawRare : Bool
  lines : List RLine
  deriving DecidableEq

def initRState : RState := ⟨false, false, false, []⟩

/-- Stale-data check of lines 374-382, performed only while not suppressed. -/
def staleWarnings (suppress : Bool) (h0 h1 : SRow) : List RLine :=
  if !suppress then
    let td := daysBetween h0.refreshed h1.refreshed
    if td < 29 then [RLine.warnYoung td]
    else if 31 < td then [RLine.warnOld td]
    else []
  else []

/-- Rendered most-recently column: str of the activationDate has one space
so the split keeps its date part. NULL is unreachable here because the
windowed query excludes NULL activation dates (the source would raise
TypeError on the membership test). -/
def actDateText (s : SRow) : String :=
  match s.activationDate with
  | some t => dateStr t
  | none => ""

def actCallText (s : SRow) : String :=
  match s.activationCall with
  | some c => c
  | none => ""

/-- One iteration of the per-summit loop (lines 363-410): fewer or more
than two history rows emit the error line and continue; otherwise the
one-time stale warning may fire, and the data line is emitted with
count = row total minus the older history entry total. -/
def reportStep (db : List SRow) (st : RState) (summit : SRow) : RState :=
  match summitHistory db summit.summitCode with
  | [h0, h1] =>
    let ws := staleWarnings st.suppress h0 h1
    let total := summit.activationCount
    { suppress := true
      sawInitial := st.sawInitial || decide (total ≤ 1)
      sawRare := st.sawRare || (!(decide (total ≤ 1)) && decide (total ≤ 5))
      lines := st.lines ++ ws
        ++ [RLine.data summit.summitCode summit.name
              (summit.activationCount - h1.activationCount) total summit.points
              (actDateText summit) (actCallText summit) (badgeOf total)] }
  | _ => { st with lines := st.lines ++ [RLine.err summit.summitCode] }

def monthlyReportSummits (db : List SRow) (y m : Nat) : RState :=
  (hotSummits db y m).foldl (reportStep db) initRState

-- ### Spot report windows (daily_report lines 239-244, monthly lines 275-280)

def dayBegin (e : Datetime) : Datetime := ⟨e.year, e.month, e.day, 0, 0, 0⟩

def dayEnd (e : Datetime) : Datetime := ⟨e.year, e.month, e.day, 23, 59, 59⟩

/-- WHERE timeStamp >= begin AND timeStamp <= end of the daily query. -/
def dailyWindowMember (e t : Datetime) : Bool :=
  dtLe (dayBegin e) t && dtLe t (dayEnd e)

/-- WHERE timeStamp >= begin AND timeStamp < end of the monthly query. -/
def monthlyWindowMember (y m : Nat) (t : Datetime) : Bool :=
  dtLe (monthStart y m) t && dtLt t (monthEnd y m)

def dailySpotsQuery (db : List NormSpot) (e : Datetime) : List NormSpot :=
  db.filter (fun n =>
    (n.associationCode == pyUpper config.association) && dailyWindowMember e n.timeStamp)

def monthlySpotsQuery (db : List NormSpot) (y m : Nat) : List NormSpot :=
  db.filter (fun n =>
    (n.associationCode == pyUpper config.association) && monthlyWindowMember y m n.timeStamp)

-- ### Scheduler (main, lines 417-440)

/-- Line 424: previous == None or now.hour != previous.hour. -/
def ingestFires : Option Datetime → Datetime → Bool
  | none, _ => true
  | some p, now => now.hour != p.hour

/-- Line 429: previous != None and now.day != previous.day. -/
def dailyFires : Option Datetime → Datetime → Bool
  | none, _ => false
  | some p, now => now.day != p.day

/-- Line 431: previous != None and now.month != previous.month. -/
def monthlyFires : Option Datetime → Datetime → Bool
  | none, _ => false
  | some p, now => now.month != p.month

inductive Trigger where
  | ingest
  | daily
  | monthly
  deriving DecidableEq, BEq

/-- Triggers fired by one loop iteration, in source order. -/
def firedTriggers (p : Option Datetime) (now : Datetime) : List Trigger :=
  (if ingestFires p now then [Trigger.ingest] else [])
    ++ (if dailyFires p now then [Trigger.daily] else [])
    ++ (if monthlyFires p now then [Trigger.monthly] else [])

/-- REPLACE INTO the summits table, which has no primary key or unique
index, never meets a conflict: it is a plain append (lines 221-231). -/
def store_summits (batch : List SRow) (db : List SRow) : List SRow :=
  db ++ batch

structure DBState where
  spots : List NormSpot
  summits : List SRow
  deriving DecidableEq

/-- External inputs of one loop iteration: the clock reading and the two
fetch outcomes. none models a transport failure: query_spots returns None
after catching it, and query_summits returns None when the association
request fails (lines 104-108). -/
structure Tick where
  now : Datetime
  spotsFetch : Option (List RawSpot)
  summitsFetch : Option (List SRow)

/-- Embedding of one iteration of the main loop body (lines 423-437).
On the ingestion trigger a None fetch result is checked for and skipped
(line 426). On the monthly trigger the query_summits result is passed to
store_summits without a None check (lines 433-434); iterating over None
raises TypeError, which nothing in main catches, so the loop terminates:
this is the Except.error outcome. Report generation reads the store and
appends text only, so it does not appear in the state. -/
def mainStep (atof : String → Option Int)
    (fromiso : List Char → Except PyErr Datetime)
    (db : DBState) (previous : Option Datetime) (t : Tick) :
    Except PyErr (DBState × Option Datetime) :=
  let db1 :=
    if ingestFires previous t.now then
      match t.spotsFetch with
      | none => db
      | some raws => { db with spots := store_spots atof fromiso raws db.spots }
    else db
  if monthlyFires previous t.now then
    match t.summitsFetch with
    | none => Except.error PyErr.typeError
    | some batch =>
      Except.ok ({ db1 with summits := store_summits batch db1.summits }, some t.now)
  else Except.ok (db1, some t.now)

deriving instance DecidableEq for Except

-- ### Concrete data used by counterexamples and witnesses

/-- Snapshot of entity X1 taken 2024-06-01 with cumulative count 3. -/
def exRowA : SRow :=
  ⟨"X1", "Alpha", 4, 3, some ⟨2024, 6, 15, 10, 0, 0⟩, some "N0A", ⟨2024, 6, 1, 0, 0, 0⟩⟩

/-- Snapshot of entity X1 taken 2024-07-01 with cumulative count 5. -/
def exRowB : SRow :=
  ⟨"X1", "Alpha", 4, 5, some ⟨2024, 6, 20, 11, 0, 0⟩, some "N0A", ⟨2024, 7, 1, 0, 0, 0⟩⟩

def exDB : List SRow := [exRowA, exRowB]

/-- Concrete stand-in for locale.atof in witnesses. -/
def atofW (s : String) : Option Int := if s = "14.25" then some 14 else none

/-- Concrete stand-in for datetime.fromisoformat in witnesses. -/
def fromisoW (l : List Char) : Except PyErr Datetime :=
  if l = "2024-06-01T12:00:00".toList then Except.ok ⟨2024, 6, 1, 12, 0, 0⟩
  else Except.error PyErr.valueError

/-- Fully valid raw spot (userID absent, as the API sometimes omits it). -/
def rawGood : RawSpot :=
  { id := some (Value.vInt 1)
    timeStamp := some (Value.vStr "2024-06-01T12:00:00.5")
    activatorCallsign := some (Value.vStr "n0a")
    associationCode := some (Value.vStr "w5n")
    summitCode := some (Value.vStr "w5n/pw-001")
    mode := some (Value.vStr "cw")
    summitDetails := some (Value.vStr "d")
    comments := some Value.vNull
    highlightColor := some (Value.vStr "")
    callsign := some (Value.vStr "n0b")
    activatorName := some (Value.vStr "Al")
    frequency := some (Value.vStr "14.25")
    userID := none }

/-- Expected canonical record for rawGood. -/
def normGood : NormSpot :=
  { id := 1
    timeStamp := ⟨2024, 6, 1, 12, 0, 0⟩
    activatorCallsign := "N0A"
    associationCode := "W5N"
    summitCode := "W5N/PW-001"
    mode := "cw"
    summitDetails := "d"
    comments := none
    highlightColor := ""
    callsign := "N0B"
    activatorName := "Al"
    frequency := 14
    userID := 0 }

/-- Second valid raw spot with a different id. -/
def rawGood2 : RawSpot := { rawGood with id := some (Value.vInt 2) }

/-- Raw spot whose frequency text does not parse as a number. -/
def rawBadFreq : RawSpot := { rawGood with frequency := some (Value.vStr "QRP??") }

/-- Raw spot identical to rawGood except that userID is null. -/
def rawNullUser : RawSpot := { rawGood with userID := some Value.vNull }

/-- Raw spot whose userID is an unparseable string. -/
def rawStrUser : RawSpot := { rawGood with userID := some (Value.vStr "abc") }

-- ### Helper definitions for the report-line theorems

/-- Entity lines of the report (error line or data line), as opposed to the
one-time stale-data warning lines. -/
def isEntityLine : RLine → Bool
  | RLine.warnYoung _ => false
  | RLine.warnOld _ => false
  | _ => true

def countEntityLines (l : List RLine) : Nat := l.countP isEntityLine

/-- Badge coherence of a report line: any data line carries the badge
computed from its own total column. -/
def dataBadgeOk (l : RLine) : Prop :=
  ∀ ref name c total pts mr bc bdg,
    l = RLine.data ref name c total pts mr bc bdg → bdg = badgeOf total

-- ### Order and window lemmas

lemma dtLt_irrefl (a : Datetime) : dtLt a a = false := by
  simp [dtLt]

lemma dtLe_refl (a : Datetime) : dtLe a a = true := by
  simp [dtLe, dtLt_irrefl]

lemma dayBegin_le_dayEnd (e : Datetime) : dtLe (dayBegin e) (dayEnd e) = true := by
  simp [dtLe, dtLt, dayBegin, dayEnd]

lemma monthStart_lt_monthEnd (y m : Nat) : dtLt (monthStart y m) (monthEnd y m) = true := by
  by_cases h : m = 12
  · subst h
    have hy : y ≠ y + 1 := by omega
    simp [monthStart, monthEnd, dtLt, hy]
  · have hm : m ≠ m + 1 := by omega
    simp [monthStart, monthEnd, dtLt, h, hm]

lemma badgeOf_cases :
    ∀ total : Int,
      (total ≤ 1 → badgeOf total = "★")
      ∧ (2 ≤ total ∧ total ≤ 5 → badgeOf total = "☆")
      ∧ (5 < total → badgeOf total = " ") := by
  intro total
  refine ⟨?_, ?_, ?_⟩
  · intro h; simp [badgeOf, h]
  · rintro ⟨h2, h5⟩
    have h1 : ¬ total ≤ 1 := by omega
    simp [badgeOf, h1, h5]
  · intro h
    have h1 : ¬ total ≤ 1 := by omega
    have h5 : ¬ total ≤ 5 := by omega
    simp [badgeOf, h1, h5]

-- ### Deduplication and line-count lemmas

lemma deduplicatedOf_eq_nil (hot : List SRow) : deduplicatedOf hot = [] := by
  unfold deduplicatedOf
  rw [List.filter_eq_nil_iff]
  intro s hs
  simp only [Bool.not_eq_true', Bool.not_eq_false, List.any_eq_true]
  exact ⟨s, hs, by simp⟩

lemma countEntityLines_staleWarnings (b : Bool) (h0 h1 : SRow) :
    countEntityLines (staleWarnings b h0 h1) = 0 := by
  simp only [staleWarnings, countEntityLines]
  split_ifs <;> simp [isEntityLine]

lemma countEntityLines_append (l1 l2 : List RLine) :
    countEntityLines (l1 ++ l2) = countEntityLines l1 + countEntityLines l2 := by
  simp [countEntityLines, List.countP_append]

lemma countEntityLines_reportStep (db : List SRow) (st : RState) (s : SRow) :
    countEntityLines (reportStep db st s).lines = countEntityLines st.lines + 1 := by
  unfold reportStep
  split
  · simp only [countEntityLines_append]
    rw [countEntityLines_staleWarnings]
    simp [countEntityLines, isEntityLine]
  · simp only [countEntityLines_append]
    simp [countEntityLines, isEntityLine]

lemma countEntityLines_foldl (db : List SRow) (hot : List SRow) :
    ∀ st : RState,
      countEntityLines (hot.foldl (reportStep db) st).lines
        = countEntityLines st.lines + hot.length := by
  induction hot with
  | nil => intro st; simp
  | cons s rest ih =>
    intro st
    rw [List.foldl_cons, ih, countEntityLines_reportStep]
    simp [Nat.add_assoc, Nat.add_comm 1 rest.length]

-- ### Badge-coherence lemmas

lemma staleWarnings_not_data (b : Bool) (h0 h1 : SRow) (l : RLine)
    (hl : l ∈ staleWarnings b h0 h1) : dataBadgeOk l := by
  simp only [staleWarnings] at hl
  split_ifs at hl <;> simp at hl <;>
    (subst hl; intro ref name c total pts mr bc bdg h; cases h)

lemma reportStep_badgeOk (db : List SRow) (st : RState) (s : SRow) (l : RLine)
    (hl : l ∈ (reportStep db st s).lines) : l ∈ st.lines ∨ dataBadgeOk l := by
  unfold reportStep at hl
  split at hl
  · simp only [List.mem_append] at hl
    rcases hl with (hl | hl) | hl
    · exact Or.inl hl
    · exact Or.inr (staleWarnings_not_data _ _ _ _ hl)
    · simp at hl
      subst hl
      right
      intro ref name c total pts mr bc bdg h
      cases h
      rfl
  · simp only [List.mem_append] at hl
    rcases hl with hl | hl
    · exact Or.inl hl
    · simp at hl
      subst hl
      right
      intro ref name c total pts mr bc bdg h
      cases h

lemma foldl_badgeOk (db : List SRow) (hot : List SRow) :
    ∀ st : RState, (∀ l ∈ st.lines, dataBadgeOk l) →
      ∀ l ∈ (hot.foldl (reportStep db) st).lines, dataBadgeOk l := by
  induction hot with
  | nil => intro st hst; simpa using hst
  | cons s rest ih =>
    intro st hst
    rw [List.foldl_cons]
    apply ih
    intro l hl
    rcases reportStep_badgeOk db st s l hl with h | h
    · exact hst l h
    · exact h

-- ### splitDot lemmas

lemma splitDot_length (l : List Char) : (splitDot l).length = l.count '.' + 1 := by
  induction l with
  | nil => simp [splitDot]
  | cons c cs ih =>
    by_cases hc : c = '.'
    · subst hc
      simp [splitDot, List.count_cons, ih]
    · simp only [splitDot, if_neg hc]
      cases h : splitDot cs with
      | nil => rw [h] at ih; simp at ih
      | cons r rs =>
        rw [h] at ih
        simp only [List.length_cons] at ih ⊢
        rw [List.count_cons]
        simp [hc, ih]

lemma splitDot_head (l : List Char) :
    ∃ rs, splitDot l = l.takeWhile (fun c => !(c == '.')) :: rs := by
  induction l with
  | nil => exact ⟨[], rfl⟩
  | cons c cs ih =>
    by_cases hc : c = '.'
    · subst hc
      refine ⟨splitDot cs, ?_⟩
      simp [splitDot, List.takeWhile]
    · obtain ⟨rs, hrs⟩ := ih
      refine ⟨rs, ?_⟩
      simp only [splitDot, if_neg hc, hrs]
      have hb : (c == '.') = false := by simp [hc]
      simp [List.takeWhile, hb]

lemma contains_of_count_pos (l : List Char) (h : 0 < l.count '.') :
    l.contains '.' = true := by
  have hm : '.' ∈ l := List.count_pos_iff.mp h
  exact List.elem_eq_true_of_mem hm

lemma not_contains_of_count_zero (l : List Char) (h : l.count '.' = 0) :
    l.contains '.' = false := by
  have hm : '.' ∉ l := List.count_eq_zero.mp h
  by_contra hb
  simp only [Bool.not_eq_false] at hb
  exact hm (List.mem_of_elem_eq_true hb)

-- ### Extraction lemma for the userID rule

lemma normalize_spot_ok_userID (atof : String → Option Int)
    (fromiso : List Char → Except PyErr Datetime) (s : RawSpot) (n : NormSpot)
    (h : normalize_spot atof fromiso s = Except.ok n) :
    normalizeUserID s.userID = Except.ok n.userID := by
  unfold normalize_spot thenE at h
  repeat' split at h
  all_goals (try simp_all)
  all_goals exact congrArg NormSpot.userID h

-- ### Claim theorems

/-- C1: the claim says a transport failure during either external fetch is
recovered locally with the cycle skipped and the loop continuing. The code
recovers the recent-observations fetch (main checks query_spots for None)
but not the entity-catalog fetch: at a month-boundary tick whose
association request fails, query_summits returns None, main passes it to
store_summits, and iterating over None raises an uncaught TypeError that
terminates the loop. The first two conjuncts exhibit that failing
iteration, the last two show the spot-fetch failure genuinely recovered. -/
theorem C1_entity_fetch_crash :
    monthlyFires (some ⟨2024, 5, 31, 23, 59, 59⟩) ⟨2024, 6, 1, 0, 0, 0⟩ = true
    ∧ mainStep atofW fromisoW ⟨[], []⟩ (some ⟨2024, 5, 31, 23, 59, 59⟩)
        ⟨⟨2024, 6, 1, 0, 0, 0⟩, some [], none⟩ = Except.error PyErr.typeError
    ∧ ingestFires (some ⟨2024, 6, 1, 13, 0, 0⟩) ⟨2024, 6, 1, 14, 0, 0⟩ = true
    ∧ mainStep atofW fromisoW ⟨[], []⟩ (some ⟨2024, 6, 1, 13, 0, 0⟩)
        ⟨⟨2024, 6, 1, 14, 0, 0⟩, none, none⟩
        = Except.ok (⟨[], []⟩, some ⟨2024, 6, 1, 14, 0, 0⟩) :=
  ⟨by decide, by decide, by decide, by decide⟩

/-- C2 counterexample: in a store holding two snapshots of entity X1 whose
activation dates both fall in the report month (counts 3 then 5), the
report prints a line whose count-this-period column is 0, although the
difference between the two most recent snapshots of X1 is 5 - 3 = 2: the
printed count uses the windowed row's own cumulative count, not the most
recent snapshot's. -/
theorem C2_counterexample :
    summitHistory exDB "X1" = [exRowB, exRowA]
    ∧ exRowB.activationCount - exRowA.activationCount = 2
    ∧ (monthlyReportSummits exDB 2024 6).lines
        = [RLine.data "X1" "Alpha" 0 3 4 "2024-06-15" "N0A" "☆",
           RLine.data "X1" "Alpha" 2 5 4 "2024-06-20" "N0A" "☆"] :=
  ⟨by decide, by decide, by decide⟩

/-- C2 amended: the count-this-period printed for a report row equals that
row's own cumulative count minus the cumulative count of the second entry
of the snapshot history; when the row is the most recent snapshot of its
entity (the intended monthly cadence), this coincides with the difference
of the two most recent snapshots. -/
theorem C2_delta_amended :
    ∀ (db : List SRow) (st : RState) (summit h0 h1 : SRow),
      summitHistory db summit.summitCode = [h0, h1] →
      (∃ ws, (reportStep db st summit).lines
          = st.lines ++ ws
            ++ [RLine.data summit.summitCode summit.name
                  (summit.activationCount - h1.activationCount)
                  summit.activationCount summit.points
                  (actDateText summit) (actCallText summit)
                  (badgeOf summit.activationCount)])
      ∧ (summit = h0 →
          summit.activationCount - h1.activationCount
            = h0.activationCount - h1.activationCount) := by
  intro db st summit h0 h1 hh
  constructor
  · refine ⟨staleWarnings st.suppress h0 h1, ?_⟩
    unfold reportStep
    rw [hh]
  · intro he
    rw [he]

/-- C2 amended witness: the amended statement applied to the concrete store
exDB at its most recent X1 snapshot. -/
theorem C2_delta_amended_witness :
    summitHistory exDB exRowB.summitCode = [exRowB, exRowA]
    ∧ ((∃ ws, (reportStep exDB initRState exRowB).lines
          = initRState.lines ++ ws
            ++ [RLine.data exRowB.summitCode exRowB.name
                  (exRowB.activationCount - exRowA.activationCount)
                  exRowB.activationCount exRowB.points
                  (actDateText exRowB) (actCallText exRowB)
                  (badgeOf exRowB.activationCount)])
      ∧ (exRowB = exRowB →
          exRowB.activationCount - exRowA.activationCount
            = exRowB.activationCount - exRowA.activationCount)) :=
  ⟨by decide, C2_delta_amended exDB initRState exRowB exRowB exRowA (by decide)⟩

/-- C3 counterexample: a record valid in every field except that its userID
is null fails normalization with TypeError instead of defaulting the field
to zero; the identical record without the null userID normalizes fine. -/
theorem C3_counterexample :
    normalize_spot atofW fromisoW rawGood = Except.ok normGood
    ∧ rawNullUser = { rawGood with userID := some Value.vNull }
    ∧ normalize_spot atofW fromisoW rawNullUser = Except.error PyErr.typeError :=
  ⟨by decide, rfl, by decide⟩

/-- C3 amended: the userID of a successfully normalized record is zero when
the raw field is absent (KeyError is caught) or is a string that fails
integer parsing (ValueError is caught); but a null userID always fails the
record, because int(None) raises TypeError, which the handler does not
catch. -/
theorem C3_userID_amended :
    (∀ (atof : String → Option Int) (fromiso : List Char → Except PyErr Datetime)
       (s : RawSpot) (n : NormSpot),
        normalize_spot atof fromiso s = Except.ok n →
          (s.userID = none → n.userID = 0)
          ∧ (∀ str, s.userID = some (Value.vStr str) → parseIntStr str = none →
              n.userID = 0))
    ∧ (∀ (atof : String → Option Int) (fromiso : List Char → Except PyErr Datetime)
        (s : RawSpot) (n : NormSpot),
        s.userID = some Value.vNull → normalize_spot atof fromiso s ≠ Except.ok n) := by
  constructor
  · intro atof fromiso s n h
    have hu := normalize_spot_ok_userID atof fromiso s n h
    constructor
    · intro hnone
      rw [hnone] at hu
      simp [normalizeUserID] at hu
      omega
    · intro str hstr hparse
      rw [hstr] at hu
      simp [normalizeUserID, pyInt, hparse] at hu
      omega
  · intro atof fromiso s n hnull h
    have hu := normalize_spot_ok_userID atof fromiso s n h
    rw [hnull] at hu
    simp [normalizeUserID, pyInt] at hu

/-- C3 amended witness: a record whose userID is the unparseable string abc
normalizes with userID zero. -/
theorem C3_userID_amended_witness :
    normalize_spot atofW fromisoW rawStrUser = Except.ok normGood
    ∧ rawStrUser.userID = some (Value.vStr "abc")
    ∧ parseIntStr "abc" = none
    ∧ normGood.userID = 0 :=
  ⟨by decide, rfl, by decide,
    (C3_userID_amended.1 atofW fromisoW rawStrUser normGood (by decide)).2 "abc" rfl
      (by decide)⟩

/-- C4: the badge of every entity line is determined exactly by the
all-time cumulative total of that line: a total of at most 1 yields the
initial-activation marker, a total between 2 and 5 yields the rare marker,
a total above 5 yields the blank marker; the boundary values 1, 5 and 6
behave exactly so, and every data line of the monthly summit report
carries the badge computed from its own total column. -/
theorem C4_badge_classification :
    (∀ total : Int,
      (total ≤ 1 → badgeOf total = "★")
      ∧ (2 ≤ total ∧ total ≤ 5 → badgeOf total = "☆")
      ∧ (5 < total → badgeOf total = " "))
    ∧ (badgeOf 1 = "★" ∧ badgeOf 5 = "☆" ∧ badgeOf 6 = " ")
    ∧ (∀ (db : List SRow) (y m : Nat) (ref name : String) (c total pts : Int)
        (mr bc bdg : String),
        RLine.data ref name c total pts mr bc bdg ∈ (monthlyReportSummits db y m).lines →
        bdg = badgeOf total) := by
  refine ⟨badgeOf_cases, ⟨by decide, by decide, by decide⟩, ?_⟩
  intro db y m ref name c total pts mr bc bdg hmem
  have := foldl_badgeOk db (hotSummits db y m) initRState (by simp [initRState]) _ hmem
  exact this ref name c total pts mr bc bdg rfl

/-- C4 witness: the rare bracket applied at total 3. -/
theorem C4_badge_classification_witness :
    ((2 : Int) ≤ 3 ∧ (3 : Int) ≤ 5) ∧ badgeOf 3 = "☆" :=
  ⟨⟨by decide, by decide⟩, ((C4_badge_classification.1 3).2.1 ⟨by decide, by decide⟩)⟩

/-- C5: the deduplication step of the monthly summit report never keeps
anything, because each candidate is compared against the candidate list
containing itself: the deduplicated list is empty for every input, and the
report emits exactly one entity line (data or error) per row of the raw
windowed query result, so an entity code appearing in several qualifying
rows produces several lines, as the concrete store exDB with two X1 rows
shows. -/
theorem C5_dedup_no_effect :
    (∀ hot : List SRow, deduplicatedOf hot = [])
    ∧ (∀ (db : List SRow) (y m : Nat),
        countEntityLines (monthlyReportSummits db y m).lines = (hotSummits db y m).length)
    ∧ countEntityLines (monthlyReportSummits exDB 2024 6).lines = 2 := by
  refine ⟨deduplicatedOf_eq_nil, ?_, ?_⟩
  · intro db y m
    unfold monthlyReportSummits
    rw [countEntityLines_foldl]
    simp [initRState, countEntityLines]
  · decide

/-- C6: the monthly query window starts at the first day of the month at
midnight and ends at the first instant of the following month, the year
rolling over exactly when the month is 12. -/
theorem C6_month_window :
    ∀ y m : Nat,
      monthStart y m = ⟨y, m, 1, 0, 0, 0⟩
      ∧ (m = 12 → monthEnd y m = ⟨y + 1, 1, 1, 0, 0, 0⟩)
      ∧ (m < 12 → monthEnd y m = ⟨y, m + 1, 1, 0, 0, 0⟩) := by
  intro y m
  refine ⟨rfl, ?_, ?_⟩
  · intro h; simp [monthEnd, h]
  · intro h
    have : m ≠ 12 := by omega
    simp [monthEnd, this]

/-- C6 witness: the window end for December 2024 and for November 2024. -/
theorem C6_month_window_witness :
    monthEnd 2024 12 = ⟨2025, 1, 1, 0, 0, 0⟩ ∧ monthEnd 2024 11 = ⟨2024, 12, 1, 0, 0, 0⟩ :=
  ⟨(C6_month_window 2024 12).2.1 rfl, (C6_month_window 2024 11).2.2 (by omega)⟩

/-- C7: a record that fails normalization is discarded without aborting the
batch: removing it from any batch leaves the stored result unchanged, and a
concrete batch of three records whose middle record has an invalid
frequency stores exactly the two valid rows. -/
theorem C7_batch_isolation :
    (∀ (atof : String → Option Int) (fromiso : List Char → Except PyErr Datetime)
       (db : List NormSpot) (xs zs : List RawSpot) (y : RawSpot) (e : PyErr),
        normalize_spot atof fromiso y = Except.error e →
        store_spots atof fromiso (xs ++ y :: zs) db = store_spots atof fromiso (xs ++ zs) db)
    ∧ (∀ (atof : String → Option Int) (fromiso : List Char → Except PyErr Datetime)
        (r1 bad r2 : RawSpot) (n1 n2 : NormSpot) (e : PyErr),
        normalize_spot atof fromiso r1 = Except.ok n1 →
        normalize_spot atof fromiso bad = Except.error e →
        normalize_spot atof fromiso r2 = Except.ok n2 →
        n1.id ≠ n2.id →
        (store_spots atof fromiso [r1, bad, r2] []).length = 2) := by
  constructor
  · intro atof fromiso db xs zs y e h
    simp [store_spots, List.foldl_append, List.foldl_cons, spotStoreStep, h]
  · intro atof fromiso r1 bad r2 n1 n2 e h1 h2 h3 hid
    have hb : (n1.id != n2.id) = true := bne_iff_ne.mpr hid
    simp [store_spots, spotStoreStep, h1, h2, h3, replaceInto, config, List.filter, hb]

/-- C7 witness: the three-record batch with one invalid frequency yields
exactly two stored rows. -/
theorem C7_batch_isolation_witness :
    (normalize_spot atofW fromisoW rawGood = Except.ok normGood
      ∧ normalize_spot atofW fromisoW rawBadFreq = Except.error PyErr.valueError
      ∧ normalize_spot atofW fromisoW rawGood2 = Except.ok { normGood with id := 2 }
      ∧ normGood.id ≠ ({ normGood with id := 2 } : NormSpot).id)
    ∧ (store_spots atofW fromisoW [rawGood, rawBadFreq, rawGood2] []).length = 2 :=
  ⟨⟨by decide, by decide, by decide, by decide⟩,
    C7_batch_isolation.2 atofW fromisoW rawGood rawBadFreq rawGood2 normGood
      { normGood with id := 2 } PyErr.valueError (by decide) (by decide) (by decide)
      (by decide)⟩

/-- C8: the ingestion trigger fires at most once per iteration (its count
among the fired triggers is one exactly when its condition holds), and the
condition is: the previous tick is undefined, or the hour field of the
current tick differs from that of the previous tick; the two concrete
conjuncts show the 13:59 to 14:00 firing and the 13:00 to 13:30 silence. -/
theorem C8_ingestion_trigger :
    ∀ (p : Option Datetime) (pp now : Datetime),
      (firedTriggers p now).count Trigger.ingest = (if ingestFires p now then 1 else 0)
      ∧ ingestFires none now = true
      ∧ ingestFires (some pp) now = (now.hour != pp.hour)
      ∧ ingestFires (some ⟨2024, 6, 1, 13, 59, 0⟩) ⟨2024, 6, 1, 14, 0, 0⟩ = true
      ∧ ingestFires (some ⟨2024, 6, 1, 13, 0, 0⟩) ⟨2024, 6, 1, 13, 30, 0⟩ = false := by
  intro p pp now
  refine ⟨?_, rfl, rfl, by decide, by decide⟩
  cases h1 : ingestFires p now <;> cases h2 : dailyFires p now <;>
    cases h3 : monthlyFires p now <;> simp [firedTriggers, h1, h2, h3] <;> decide

/-- C9: normalize_sota_timestamp leaves a dot-free text to the ISO parser
unchanged; with exactly one dot it parses the part before the dot,
discarding the rest; with two or more dots the two-way unpacking of the
split raises ValueError, so such a record is rejected rather than having
its fractional suffix stripped. -/
theorem C9_timestamp_split :
    ∀ (fromiso : List Char → Except PyErr Datetime) (l : List Char),
      (l.count '.' = 0 → normalize_sota_timestamp fromiso l = fromiso l)
      ∧ (l.count '.' = 1 →
          normalize_sota_timestamp fromiso l
            = fromiso (l.takeWhile (fun c => !(c == '.'))))
      ∧ (2 ≤ l.count '.' →
          normalize_sota_timestamp fromiso l = Except.error PyErr.valueError) := by
  intro fromiso l
  refine ⟨?_, ?_, ?_⟩
  · intro h0
    have hc := not_contains_of_count_zero l h0
    simp [normalize_sota_timestamp, hc]
    intro hmem
    exact absurd hmem (List.count_eq_zero.mp h0)
  · intro h1
    obtain ⟨rs, hrs⟩ := splitDot_head l
    have hlen := splitDot_length l
    rw [hrs] at hlen
    simp only [List.length_cons, h1] at hlen
    obtain ⟨ms, rfl⟩ : ∃ ms, rs = [ms] := by
      cases rs with
      | nil => exfalso; simp only [List.length_nil] at hlen; omega
      | cons a t =>
        cases t with
        | nil => exact ⟨a, rfl⟩
        | cons b u => exfalso; simp only [List.length_cons] at hlen; omega
    have hmem : '.' ∈ l := List.count_pos_iff.mp (by omega)
    have hc : l.contains '.' = true := List.elem_eq_true_of_mem hmem
    simp [normalize_sota_timestamp, hc, hrs]
    intro hnot
    exact absurd hmem hnot
  · intro h2
    obtain ⟨rs, hrs⟩ := splitDot_head l
    have hlen := splitDot_length l
    rw [hrs] at hlen
    simp only [List.length_cons] at hlen
    obtain ⟨a, b, u, rfl⟩ : ∃ a b u, rs = a :: b :: u := by
      cases rs with
      | nil => exfalso; simp only [List.length_nil] at hlen; omega
      | cons a t =>
        cases t with
        | nil => exfalso; simp only [List.length_cons, List.length_nil] at hlen; omega
        | cons b u => exact ⟨a, b, u, rfl⟩
    have hmem : '.' ∈ l := List.count_pos_iff.mp (by omega)
    have hc : l.contains '.' = true := List.elem_eq_true_of_mem hmem
    simp [normalize_sota_timestamp, hc, hrs]
    intro hnot
    exact absurd hmem hnot

/-- C9 witness: a timestamp with one fractional dot is parsed up to the
dot; a text with two dots raises ValueError. -/
theorem C9_timestamp_split_witness :
    ("2024-06-01T12:00:00.5".toList.count '.' = 1
      ∧ normalize_sota_timestamp fromisoW "2024-06-01T12:00:00.5".toList
          = fromisoW ("2024-06-01T12:00:00.5".toList.takeWhile (fun c => !(c == '.'))))
    ∧ (2 ≤ "1.2.3".toList.count '.'
      ∧ normalize_sota_timestamp fromisoW "1.2.3".toList = Except.error PyErr.valueError) :=
  ⟨⟨by decide, (C9_timestamp_split fromisoW "2024-06-01T12:00:00.5".toList).2.1 (by decide)⟩,
   ⟨by decide, (C9_timestamp_split fromisoW "1.2.3".toList).2.2 (by decide)⟩⟩

/-- C10: the daily query window is closed on both ends, so the last second
of the target date is inside it and anything strictly later (in particular
the following midnight) is outside; the monthly window contains its first
instant but not its exclusive end instant. -/
theorem C10_window_bounds :
    (∀ e : Datetime, dailyWindowMember e (dayEnd e) = true)
    ∧ (∀ e t : Datetime, dtLt (dayEnd e) t = true → dailyWindowMember e t = false)
    ∧ (∀ y m : Nat, monthlyWindowMember y m (monthStart y m) = true)
    ∧ (∀ y m : Nat, monthlyWindowMember y m (monthEnd y m) = false) := by
  refine ⟨?_, ?_, ?_, ?_⟩
  · intro e
    simp [dailyWindowMember, dayBegin_le_dayEnd, dtLe_refl]
  · intro e t h
    simp [dailyWindowMember, dtLe, h]
  · intro y m
    simp [monthlyWindowMember, dtLe_refl, monthStart_lt_monthEnd]
  · intro y m
    simp [monthlyWindowMember, dtLt_irrefl]

/-- C10 witness: the midnight following 2024-06-15 is after that day's
window end and is excluded from the daily window. -/
theorem C10_window_bounds_witness :
    dtLt (dayEnd ⟨2024, 6, 15, 12, 0, 0⟩) ⟨2024, 6, 16, 0, 0, 0⟩ = true
    ∧ dailyWindowMember ⟨2024, 6, 15, 12, 0, 0⟩ ⟨2024, 6, 16, 0, 0, 0⟩ = false :=
  ⟨by decide, C10_window_bounds.2.1 ⟨2024, 6, 15, 12, 0, 0⟩ ⟨2024, 6, 16, 0, 0, 0⟩ (by decide)⟩
